import Mathlib

/-!
Verification development for the BODHI two-pass prompting core
(`bodhi/prompts.py`, `bodhi/core.py`, `bodhi/types.py`).

Strings are modelled as Lean `String`s; the character-level helpers below
embed the Python string primitives the code uses (`str.lower`, `in`,
`str.split(sep)[i]`, slicing `[:n]`, `str.strip`, `str.format`,
`"\n".join`).  Lowercasing and whitespace follow Python's behaviour on
ASCII text; Python's extra Unicode case folding is outside the model.
-/

namespace Bodhi

/-- ASCII lowercasing of the character list of a string: embeds Python
`str.lower()` (on ASCII text). -/
def lowerData (s : String) : List Char :=
  s.data.map Char.toLower

/-- Substring containment: embeds Python's `needle in haystack`.
`containsSub s pat` is true iff `pat` occurs contiguously in `s`
(the empty pattern occurs in every string, as in Python). -/
def containsSub : List Char → List Char → Bool
  | [], pat => pat.isEmpty
  | s@(_ :: rest), pat => pat.isPrefixOf s || containsSub rest pat

/-- Locate the first occurrence of `sep`: returns `some (before, after)`
where `before` is the text strictly before the first occurrence and
`after` the text strictly after it, or `none` when `sep` does not occur. -/
def splitOnceAfter : List Char → List Char → Option (List Char × List Char)
  | [], sep => if sep.isEmpty then some ([], []) else none
  | s@(c :: rest), sep =>
    if sep.isPrefixOf s then some ([], s.drop sep.length)
    else (splitOnceAfter rest sep).map (fun p => (c :: p.1, p.2))

/-- Fuelled worker for `pySplit`.  Each step consumes at least one input
character, so fuel `s.length + 1` never runs out; the fuel-zero case is
unreachable for the fuel `pySplit` supplies. -/
def pySplitAux : Nat → List Char → List Char → List (List Char)
  | 0, s, _ => [s]
  | fuel + 1, s, sep =>
    match splitOnceAfter s sep with
    | none => [s]
    | some (b, a) => b :: pySplitAux fuel a sep

/-- Embeds Python `s.split(sep)` for a non-empty separator: the list of
segments between consecutive (non-overlapping, leftmost) occurrences. -/
def pySplit (s sep : List Char) : List (List Char) :=
  pySplitAux (s.length + 1) s sep

/-- The text strictly after the first occurrence of `sep` (empty when no
occurrence). -/
def afterFirstOcc (s sep : List Char) : List Char :=
  match splitOnceAfter s sep with
  | some (_, a) => a
  | none => []

/-- The text strictly before the first occurrence of `sep` in `t`
(all of `t` when no occurrence). -/
def upToNextOcc (t sep : List Char) : List Char :=
  match splitOnceAfter t sep with
  | some (b, _) => b
  | none => t

/-! ### Classifier (`bodhi/prompts.py`, `_detect_task_type` / `_detect_audience`) -/

/-- The explicit task-type marker searched for in lowered analysis text. -/
def taskMarker : List Char := "task type:".data

/-- The explicit audience marker searched for in lowered analysis text. -/
def audMarker : List Char := "audience:".data

/-- `emergency_phrases` from `_detect_task_type`. -/
def emergencyPhrases : List String :=
  ["someone collapse", "collapsed", "unconscious", "not breathing",
   "stopped breathing", "choking", "severe bleeding", "call 911"]

/-- `doc_types` from `_detect_task_type`. -/
def docTypes : List String :=
  ["soap note", "icd code", "cpt code", "mychart note", "discharge summary"]

/-- `action_words` from `_detect_task_type`. -/
def actionWords : List String :=
  ["write a", "create a", "provide the", "edit this", "rewrite", "correct this"]

/-- `clinical_reasoning_signals` from `_detect_task_type`. -/
def clinicalReasoningSignals : List String :=
  ["differential", "uncertainty", "rule out", "consider",
   "unclear", "depends on", "need more information", "clinical reasoning"]

/-- `professional_signals` from `_detect_audience`. -/
def professionalSignals : List String :=
  ["as a nurse", "as a physician", "as a doctor", "medical student",
   "clinical question", "differential diagnosis", "treatment protocol",
   "icd code", "cpt code", "soap note", "chart note"]

/-- `patient_signals` from `_detect_audience`. -/
def patientSignals : List String :=
  ["my symptom", "i have", "my child", "my husband", "my wife",
   "should i", "is it normal", "worried about", "scared", "anxious"]

/-- Embeds `analysis_lower.split("task type:")[1][:80]`: the window the code
inspects after an explicit task-type declaration.  Index `1` of the split is
the text between the first and second occurrences of the marker (to the end
when the marker occurs once); the `getD []` default is unreachable under the
`containsSub` guard in `detectTaskType`, which mirrors the `in` guard that
protects the Python indexing from an `IndexError`. -/
def taskTypeWindow (al : List Char) : List Char :=
  (((pySplit al taskMarker).get? 1).getD []).take 80

/-- Embeds `analysis_lower.split("audience:")[1][:60]` (see `taskTypeWindow`). -/
def audienceWindow (al : List Char) : List Char :=
  (((pySplit al audMarker).get? 1).getD []).take 60

/-- The keyword-heuristic tail of `_detect_task_type` (everything after the
explicit-marker block): emergency keywords first, then the documentation-type
and action-word conjunction refined by clinical-reasoning signals, defaulting
to `"CONVERSATION"`. -/
def taskTypeHeuristic (al : List Char) : String :=
  if emergencyPhrases.any (fun p => containsSub al p.data) then "EMERGENCY"
  else if (docTypes.any fun d => containsSub al d.data) &&
          (actionWords.any fun w => containsSub al w.data) then
    if clinicalReasoningSignals.any (fun p => containsSub al p.data) then "HYBRID"
    else "TECHNICAL"
  else "CONVERSATION"

/-- Embeds `_detect_task_type` from `bodhi/prompts.py`.  The Python code
binds `analysis_lower` and `after_type` once; here the pure expressions are
repeated, which is semantically identical. -/
def detectTaskType (analysis : String) : String :=
  if containsSub (lowerData analysis) taskMarker then
    if containsSub (taskTypeWindow (lowerData analysis)) "hybrid".data then "HYBRID"
    else if containsSub (taskTypeWindow (lowerData analysis)) "technical".data then "TECHNICAL"
    else if containsSub (taskTypeWindow (lowerData analysis)) "emergency".data then "EMERGENCY"
    else taskTypeHeuristic (lowerData analysis)
  else taskTypeHeuristic (lowerData analysis)

/-! ### Prompt templates (`bodhi/prompts.py`)

Each Python f-string template is transcribed as the fixed text pieces
around its interpolation points; the render functions below concatenate
them exactly as the f-strings do. -/

/-- Fixed text of the medical analysis template before `{case_text}`. -/
def medAnalysisPre : String :=
  "You are a thoughtful medical AI. Analyze this input carefully.\n\nInput:\n"

/-- Fixed text of the medical analysis template after `{case_text}`. -/
def medAnalysisSuf : String :=
  "\n\nProvide your analysis:\n\n1. TASK TYPE: Is this a CONVERSATION (health advice), TECHNICAL (documentation task), HYBRID (technical format + clinical reasoning), or EMERGENCY?\n\n2. AUDIENCE: Who is asking? (PATIENT/CAREGIVER = use simple warm language, HEALTH_PROFESSIONAL = use clinical terminology, UNCLEAR = default to accessible)\n\n3. WHAT I THINK: Your best assessment (be honest about confidence)\n\n4. KEY UNCERTAINTIES: What information is missing that would change your advice?\n\n5. QUESTIONS TO ASK: 1-2 specific clarifying questions (if needed)\n\n6. RED FLAGS: Any urgent warning signs (or \"None\")\n\n7. SAFE RECOMMENDATIONS: What can you confidently advise regardless of unknowns?\n\nBe genuinely curious and humble - acknowledge what you don\x27t know."

/-- Fixed text of the general analysis template before `{case_text}`. -/
def genAnalysisPre : String :=
  "You are a thoughtful AI assistant. Analyze this request with intellectual humility.\n\nRequest:\n"

/-- Fixed text of the general analysis template after `{case_text}`. -/
def genAnalysisSuf : String :=
  "\n\nThink carefully and provide:\n\n1. WHAT I THINK: Your best understanding of what\x27s needed\n2. WHAT I\x27M UNSURE ABOUT: Key uncertainties or ambiguities\n3. WHAT I NEED TO KNOW: Questions that would help me assist better\n4. IMPORTANT CONSIDERATIONS: Any critical factors to keep in mind\n5. CONFIDENT ADVICE: What I can reliably help with regardless of uncertainty\n\nBe genuinely curious and humble - don\x27t pretend to know more than you do."

/-- Text between `{analysis}` and `{case_text}` in every medical response
template. -/
def medMid : String := "\n\nOriginal request:\n"

/-- TECHNICAL response template before `{analysis}`. -/
def techPre : String :=
  "Based on your analysis, this is a TECHNICAL/DOCUMENTATION task.\n\nYour analysis:\n"

/-- TECHNICAL response template after `{case_text}`. -/
def techSuf : String :=
  "\n\nINSTRUCTIONS (Follow exactly):\n- Provide ONLY the specific output format requested (SOAP note, ICD codes, summary, etc.)\n- Match the user\x27s formatting instructions precisely\n- Use professional medical documentation style\n- Do NOT add conversational advice\n- Do NOT add clarifying questions\n- Do NOT add disclaimers or caveats unless part of standard documentation\n\nIf the request asks for a specific format, provide ONLY that format.\n\nProvide the requested output:"

/-- EMERGENCY response template before `{analysis}`. -/
def emergPre : String :=
  "Based on your analysis, this may be an EMERGENCY situation.\n\nYour analysis:\n"

/-- EMERGENCY response template after `{case_text}`. -/
def emergSuf : String :=
  "\n\nPROVIDE EMERGENCY GUIDANCE:\n1. First, state what to check (responsiveness, breathing, pulse) in order\n2. Give clear, step-by-step instructions\n3. Say when to call emergency services\n4. Keep it brief and actionable\n\nRespond now:"

/-- HYBRID response template before `{analysis}`. -/
def hybridPre : String :=
  "This task requires BOTH technical format AND clinical reasoning.\n\nYour analysis:\n"

/-- HYBRID response template after `{case_text}`. -/
def hybridSuf : String :=
  "\n\nHYBRID RESPONSE GUIDELINES:\n\n1. PRIMARY OUTPUT:\n   - Provide the requested format (SOAP note, ICD codes, etc.) as the main output\n   - Follow formatting instructions precisely\n\n2. EMBEDDED CLINICAL REASONING:\n   - WITHIN that format, include appropriate uncertainty markers\n   - For SOAP notes: In Assessment, note differentials and uncertainties\n   - For ICD codes: Provide codes, then note \"If [condition], also consider [code]\"\n\n3. BE COMPLETE:\n   - Address all aspects of the request\n   - Don\x27t just defer - provide information for each scenario\n   - Include relevant differentials\n\n4. OPTIONAL FOLLOW-UP:\n   If helpful, add a brief note about what additional context would refine the plan.\n\nProvide the formatted response with embedded clinical reasoning:"

/-- CONVERSATION-PATIENT response template before `{analysis}`. -/
def patientPre : String :=
  "Write a warm, helpful response for this patient/caregiver.\n\nYour analysis:\n"

/-- CONVERSATION-PATIENT response template after `{case_text}`. -/
def patientSuf : String :=
  "\n\nRESPONSE GUIDELINES:\n- First, directly answer their main question\n- Address ALL parts of what they asked\n\nBE SPECIFIC:\n- Include specific numbers: dosages, frequencies, timeframes\n- Example: \"Take ibuprofen 200-400mg every 4-6 hours, max 1200mg per day\"\n- Mention emergency numbers: \"Call 911 (in the US)\" when relevant\n\nACTIVELY ASK about concerning symptoms:\n- Don\x27t say \"if you experience X\" - instead ASK \"Are you experiencing X right now?\"\n- Example: \"Are you having any chest pain, shortness of breath, or fever?\"\n\nINCLUDE ALTERNATIVES when they exist:\n- Don\x27t just give one option - mention alternatives\n- Example: \"See a doctor within 24-48 hours, or sooner if symptoms worsen\"\n\nInclude warning signs and when to see a doctor.\nUse warm, simple language. Be reassuring but honest.\n\nWrite your response:"

/-- CONVERSATION-HEALTH_PROFESSIONAL response template before `{analysis}`. -/
def hpPre : String :=
  "Write a helpful response for this health professional.\n\nYour analysis:\n"

/-- CONVERSATION-HEALTH_PROFESSIONAL response template after `{case_text}`. -/
def hpSuf : String :=
  "\n\nRESPONSE GUIDELINES:\n- Directly address their clinical question first\n- Address ALL aspects of what they asked\n\nBE SPECIFIC:\n- Include specific dosing, frequencies, lab values when relevant\n- Provide concrete differential diagnoses with distinguishing features\n- Suggest specific workup: \"Consider CBC, CMP, imaging with CT/MRI\"\n\nINCLUDE ALTERNATIVES:\n- \"If X is confirmed, consider Y; if Z instead, consider W\"\n- Mention multiple management options where appropriate\n\nIf key info is missing, ask directly: \"Is the patient currently experiencing [symptom]?\"\n\nWrite your response:"

/-- CONVERSATION-UNCLEAR response template before `{analysis}`. -/
def unclearPre : String :=
  "Write a helpful response to the user.\n\nYour analysis:\n"

/-- CONVERSATION-UNCLEAR response template after `{case_text}`. -/
def unclearSuf : String :=
  "\n\nRESPONSE GUIDELINES:\n- Lead with a clear, direct answer to their main question\n- Address ALL parts of what they asked\n\nBE SPECIFIC:\n- Include specific numbers, dosages, timeframes when relevant\n- Mention emergency contacts: \"Call 911 (US) or your local emergency number\"\n\nACTIVELY ASK about concerning symptoms:\n- Don\x27t say \"if you experience\" - ASK directly: \"Are you having [symptom] right now?\"\n\nINCLUDE ALTERNATIVES:\n- When multiple options exist, mention all of them\n\nInclude what to monitor and when to seek care.\nUse accessible language - explain any medical terms.\n\nWrite your response:"

/-- General-domain response template before `{analysis}`. -/
def genRespPre : String := "Now respond to the user helpfully.\n\nYour analysis:\n"

/-- General-domain response template between `{analysis}` and `{case_text}`. -/
def genRespMid : String := "\n\nRequest:\n"

/-- General-domain response template after `{case_text}`. -/
def genRespSuf : String := "\n\nWrite a helpful, natural response:"

/-- The rendered TECHNICAL response prompt. -/
def tmplTechnical (analysis caseText : String) : String :=
  techPre ++ analysis ++ medMid ++ caseText ++ techSuf

/-- The rendered EMERGENCY response prompt. -/
def tmplEmergency (analysis caseText : String) : String :=
  emergPre ++ analysis ++ medMid ++ caseText ++ emergSuf

/-- The rendered HYBRID response prompt. -/
def tmplHybrid (analysis caseText : String) : String :=
  hybridPre ++ analysis ++ medMid ++ caseText ++ hybridSuf

/-- The rendered CONVERSATION-PATIENT response prompt. -/
def tmplPatient (analysis caseText : String) : String :=
  patientPre ++ analysis ++ medMid ++ caseText ++ patientSuf

/-- The rendered CONVERSATION-HEALTH_PROFESSIONAL response prompt. -/
def tmplProfessional (analysis caseText : String) : String :=
  hpPre ++ analysis ++ medMid ++ caseText ++ hpSuf

/-- The rendered CONVERSATION-UNCLEAR response prompt. -/
def tmplUnclear (analysis caseText : String) : String :=
  unclearPre ++ analysis ++ medMid ++ caseText ++ unclearSuf

/-- The rendered general-domain response prompt. -/
def tmplGeneralResponse (analysis caseText : String) : String :=
  genRespPre ++ analysis ++ genRespMid ++ caseText ++ genRespSuf

/-- Embeds `render_analysis_prompt` from `bodhi/prompts.py`: the medical
template for domain `"medical"`, the general template for every other
domain. -/
def renderAnalysisPrompt (caseText domain : String) : String :=
  if domain = "medical" then medAnalysisPre ++ caseText ++ medAnalysisSuf
  else genAnalysisPre ++ caseText ++ genAnalysisSuf

/-- The heuristic tail of `_detect_audience` (after the explicit-marker
block). -/
def audienceHeuristic (al : List Char) : String :=
  if (professionalSignals.any fun p => containsSub al p.data) &&
     !(patientSignals.any fun p => containsSub al p.data) then "HEALTH_PROFESSIONAL"
  else if (patientSignals.any fun p => containsSub al p.data) &&
          !(professionalSignals.any fun p => containsSub al p.data) then "PATIENT"
  else "UNCLEAR"

/-- Embeds `_detect_audience` from `bodhi/prompts.py`. -/
def detectAudience (analysis : String) : String :=
  if containsSub (lowerData analysis) audMarker then
    if containsSub (audienceWindow (lowerData analysis)) "health_professional".data ||
       containsSub (audienceWindow (lowerData analysis)) "professional".data then
      "HEALTH_PROFESSIONAL"
    else if containsSub (audienceWindow (lowerData analysis)) "patient".data ||
            containsSub (audienceWindow (lowerData analysis)) "caregiver".data then
      "PATIENT"
    else audienceHeuristic (lowerData analysis)
  else audienceHeuristic (lowerData analysis)

/-- The medical-domain template dispatch of `render_response_prompt`
(the `if domain == "medical"` branch): select by detected task type, and
for the CONVERSATION default additionally by detected audience. -/
def renderMedicalResponse (caseText analysis : String) : String :=
  if detectTaskType analysis = "TECHNICAL" then tmplTechnical analysis caseText
  else if detectTaskType analysis = "EMERGENCY" then tmplEmergency analysis caseText
  else if detectTaskType analysis = "HYBRID" then tmplHybrid analysis caseText
  else if detectAudience analysis = "PATIENT" then tmplPatient analysis caseText
  else if detectAudience analysis = "HEALTH_PROFESSIONAL" then tmplProfessional analysis caseText
  else tmplUnclear analysis caseText

/-- Embeds `render_response_prompt` from `bodhi/prompts.py`.  The Python
code computes `task_type` before testing the domain; both classifiers are
pure, so factoring the medical branch out is semantically identical. -/
def renderResponsePrompt (caseText analysis domain : String) : String :=
  if domain = "medical" then renderMedicalResponse caseText analysis
  else tmplGeneralResponse analysis caseText

/-- The six fixed medical response templates, indexed for the
exactly-one-template statement of the template dispatch. -/
def medicalTemplate (i : Fin 6) : String → String → String :=
  if i.val = 0 then tmplTechnical
  else if i.val = 1 then tmplEmergency
  else if i.val = 2 then tmplHybrid
  else if i.val = 3 then tmplPatient
  else if i.val = 4 then tmplProfessional
  else tmplUnclear

/-- The fixed text each of the six medical templates starts with, used to
tell the rendered templates apart. -/
def medicalHeadText (i : Fin 6) : String :=
  if i.val = 0 then techPre
  else if i.val = 1 then emergPre
  else if i.val = 2 then hybridPre
  else if i.val = 3 then patientPre
  else if i.val = 4 then hpPre
  else unclearPre

/-! ### Orchestrator (`bodhi/core.py`, `bodhi/types.py`)

The external chat callable is modelled as a function from a message list
(role/content pairs) to `Except ε String`: `Except.error e` models the
callable raising fault `e`.  Every orchestrator operation returns, next to
its result, the list of message lists it sent to the callable, in order —
the interaction trace.  Wall-clock timing (`pass1_time`, `total_time` in
the Python metadata dict) is real time and is outside the model; the
deterministic metadata fields `mode` and `domain` are kept. -/

/-- True on the ASCII whitespace characters Python's `str.strip()` removes. -/
def isPySpace (c : Char) : Bool :=
  c = ' ' || c = '\t' || c = '\n' || c = '\x0d' || c = '\x0b' || c = '\x0c'

/-- Embeds Python `str.strip()` (on ASCII whitespace): drop leading and
trailing whitespace characters. -/
def pyStrip (s : String) : String :=
  ⟨((s.data.dropWhile isPySpace).reverse.dropWhile isPySpace).reverse⟩

/-- The faults Python `str.format` raises: `KeyError` for an unknown field
name, `ValueError` for an unmatched single brace. -/
inductive FmtError where
  | keyError (key : String)
  | valueError
deriving DecidableEq, Repr

/-- Read up to the closing brace of a replacement field: returns the field
name and the remaining input, or `none` when the brace is unmatched. -/
def splitAtBrace : List Char → Option (List Char × List Char)
  | [] => none
  | c :: rest =>
    if c = '\x7d' then some ([], rest)
    else (splitAtBrace rest).map (fun p => (c :: p.1, p.2))

/-- Fuelled worker for `pyFormat`.  Each step consumes at least one input
character, so the fuel `pyFormat` supplies never runs out and the
fuel-zero case is unreachable. -/
def pyFormatAux : Nat → List Char → List (String × String) → Except FmtError (List Char)
  | _, [], _ => .ok []
  | 0, _ :: _, _ => .error .valueError
  | fuel + 1, c :: rest, vals =>
    if c = '\x7b' then
      match rest with
      | '\x7b' :: rest2 => (pyFormatAux fuel rest2 vals).map (fun t => '\x7b' :: t)
      | _ =>
        match splitAtBrace rest with
        | none => .error .valueError
        | some (name, rest2) =>
          match vals.lookup (String.mk name) with
          | some v => (pyFormatAux fuel rest2 vals).map (fun t => v.data ++ t)
          | none => .error (.keyError (String.mk name))
    else if c = '\x7d' then
      match rest with
      | '\x7d' :: rest2 => (pyFormatAux fuel rest2 vals).map (fun t => '\x7d' :: t)
      | _ => .error .valueError
    else
      (pyFormatAux fuel rest vals).map (fun t => c :: t)

/-- Embeds Python `template.format(**vals)` with string keyword arguments:
`{name}` is replaced by the value bound to `name`, `\x7b\x7b` and `\x7d\x7d`
are brace escapes, an unknown field name raises `KeyError` and an unmatched
single brace raises `ValueError`.  Conversion and format specifications
(`!r`, `:>10`) are not modelled: the templates this program formats carry
plain `{input}` / `{analysis}` fields only. -/
def pyFormat (tmpl : String) (vals : List (String × String)) : Except FmtError String :=
  (pyFormatAux (tmpl.data.length + 1) tmpl.data vals).map String.mk

/-- A content fragment of a structured message (`{"type": ..., "text": ...}`
dicts in Python); a non-dict list element is `nonDictPart`. -/
inductive Fragment where
  | dictPart (type_ : String) (text : String)
  | nonDictPart
deriving DecidableEq, Repr

/-- The `content` value of an input message: a plain string, a fragment
list, or a value of any other type. -/
inductive MsgContent where
  | str (s : String)
  | parts (l : List Fragment)
  | otherContent
deriving DecidableEq, Repr

/-- A member of an input message list: a dict with a role and a content
value, or a value of any other type (skipped by normalization). -/
inductive InMessage where
  | dictMsg (role : String) (content : MsgContent)
  | nonDictMsg
deriving DecidableEq, Repr

/-- The `prompt` argument of `complete`/`analyze`: a plain string, a list
of role-tagged messages, or a value of any other type carried by its
canonical string representation (Python `str(prompt)`). -/
inductive PromptInput where
  | str (s : String)
  | msgs (l : List InMessage)
  | other (repr_ : String)
deriving DecidableEq, Repr

/-- The contributions one message adds to the `parts` list in
`_normalize_input`: string content directly; for fragment-list content the
`text` value of each dict fragment tagged `"text"`; nothing otherwise. -/
def msgParts : InMessage → List String
  | .nonDictMsg => []
  | .dictMsg _ (.str s) => [s]
  | .dictMsg _ (.parts l) =>
    l.filterMap fun fr =>
      match fr with
      | .dictPart t x => if t = "text" then some x else none
      | .nonDictPart => none
  | .dictMsg _ .otherContent => []

/-- The `parts` list accumulated over a message list in
`_normalize_input`. -/
def collectParts : List InMessage → List String
  | [] => []
  | m :: rest => msgParts m ++ collectParts rest

/-- Embeds `BODHI._normalize_input` from `bodhi/core.py`: a string is
stripped; a message list is flattened to `parts`, the non-empty parts are
newline-joined (the `if p` filter in the Python generator expression) and
the result stripped; anything else is its canonical string representation. -/
def normalizeInput : PromptInput → String
  | .str s => pyStrip s
  | .msgs l => pyStrip (String.intercalate "\n" ((collectParts l).filter fun p => !p.isEmpty))
  | .other r => r

/-- Embeds `BODHIConfig` from `bodhi/types.py`. -/
structure BODHIConfig where
  analysis_template : Option String := none
  response_template : Option String := none
  domain : String := "medical"
deriving DecidableEq, Repr

/-- The deterministic metadata fields of a `BODHIResponse` (the timing
fields are wall-clock values, outside the model). -/
structure RespMetadata where
  mode : String
  domain : String
deriving DecidableEq, Repr

/-- Embeds `BODHIResponse` from `bodhi/types.py`. -/
structure BODHIResponse where
  content : String
  analysis : String
  metadata : RespMetadata
deriving DecidableEq, Repr

/-- How a run of `complete`/`analyze` fails: a `str.format` fault raised
while rendering a custom template, or a fault `e` raised by the external
callable and propagated untouched (the constructor is the sum-type
injection; the carried fault is unchanged). -/
inductive RunError (ε : Type) where
  | fmt (e : FmtError)
  | chatFault (e : ε)
deriving DecidableEq, Repr

/-- The message list sent to the external callable for one pass:
`[{"role": "user", "content": prompt}]`. -/
def userMsg (prompt : String) : List (String × String) := [("user", prompt)]

/-- Embeds `BODHI._get_analysis_prompt`: Python tests the template with
`if self.config.analysis_template:`, so an empty-string template is falsy
and the default template is used for it, exactly like `None`. -/
def getAnalysisPrompt (cfg : BODHIConfig) (caseText : String) : Except FmtError String :=
  match cfg.analysis_template with
  | some t =>
    if t.isEmpty then .ok (renderAnalysisPrompt caseText cfg.domain)
    else pyFormat t [("input", caseText)]
  | none => .ok (renderAnalysisPrompt caseText cfg.domain)

/-- Embeds `BODHI._get_response_prompt` (same truthiness test as
`getAnalysisPrompt`). -/
def getResponsePrompt (cfg : BODHIConfig) (caseText analysis : String) :
    Except FmtError String :=
  match cfg.response_template with
  | some t =>
    if t.isEmpty then .ok (renderResponsePrompt caseText analysis cfg.domain)
    else pyFormat t [("input", caseText), ("analysis", analysis)]
  | none => .ok (renderResponsePrompt caseText analysis cfg.domain)

/-- The fixed placeholder stored in the `analysis` field by single-pass
mode. -/
def singlePassPlaceholder : String :=
  "(Single-pass mode - analysis embedded in response)"

/-- Embeds `BODHI._two_pass`: render the analysis prompt, call the
external callable, render the response prompt around the first output,
call the callable again, and assemble the record.  A fault at any step
aborts the run there; the second component is the interaction trace. -/
def twoPassRun {ε : Type} (cfg : BODHIConfig)
    (chat : List (String × String) → Except ε String) (caseText : String) :
    Except (RunError ε) BODHIResponse × List (List (String × String)) :=
  match getAnalysisPrompt cfg caseText with
  | .error e => (.error (.fmt e), [])
  | .ok analysisPrompt =>
    match chat (userMsg analysisPrompt) with
    | .error e => (.error (.chatFault e), [userMsg analysisPrompt])
    | .ok analysis =>
      match getResponsePrompt cfg caseText analysis with
      | .error e => (.error (.fmt e), [userMsg analysisPrompt])
      | .ok responsePrompt =>
        match chat (userMsg responsePrompt) with
        | .error e =>
          (.error (.chatFault e), [userMsg analysisPrompt, userMsg responsePrompt])
        | .ok content =>
          (.ok ⟨content, analysis, ⟨"two_pass", cfg.domain⟩⟩,
           [userMsg analysisPrompt, userMsg responsePrompt])

/-- Embeds `BODHI._single_pass`: one call on the analysis prompt, its
output used as the final content, the `analysis` field set to the fixed
placeholder. -/
def singlePassRun {ε : Type} (cfg : BODHIConfig)
    (chat : List (String × String) → Except ε String) (caseText : String) :
    Except (RunError ε) BODHIResponse × List (List (String × String)) :=
  match getAnalysisPrompt cfg caseText with
  | .error e => (.error (.fmt e), [])
  | .ok analysisPrompt =>
    match chat (userMsg analysisPrompt) with
    | .error e => (.error (.chatFault e), [userMsg analysisPrompt])
    | .ok content =>
      (.ok ⟨content, singlePassPlaceholder, ⟨"single_pass", cfg.domain⟩⟩,
       [userMsg analysisPrompt])

/-- Embeds `BODHI.complete`: normalize the input, then run two-pass or
single-pass mode. -/
def runComplete {ε : Type} (cfg : BODHIConfig)
    (chat : List (String × String) → Except ε String) (input : PromptInput)
    (twoPass : Bool) :
    Except (RunError ε) BODHIResponse × List (List (String × String)) :=
  if twoPass then twoPassRun cfg chat (normalizeInput input)
  else singlePassRun cfg chat (normalizeInput input)

/-- Embeds `BODHI.analyze`: normalize, render the analysis prompt, call
the callable once and return its raw output. -/
def analyzeRun {ε : Type} (cfg : BODHIConfig)
    (chat : List (String × String) → Except ε String) (input : PromptInput) :
    Except (RunError ε) String × List (List (String × String)) :=
  match getAnalysisPrompt cfg (normalizeInput input) with
  | .error e => (.error (.fmt e), [])
  | .ok analysisPrompt =>
    match chat (userMsg analysisPrompt) with
    | .error e => (.error (.chatFault e), [userMsg analysisPrompt])
    | .ok analysis => (.ok analysis, [userMsg analysisPrompt])

/-! ### Spec-side definitions

These follow the words of the specification (not the code), for the
claims that compare the two. -/

/-- Modelled from the spec: "inspect the 80 characters following the first
occurrence" of the task-type marker — the window as claim C1 describes it,
with no cut at a second marker occurrence. -/
def specWindow80 (s : String) : List Char :=
  (afterFirstOcc (lowerData s) taskMarker).take 80

/-- Modelled from the spec: the contribution of one role-tagged message as
claim C7 describes it — the string content directly, or the text of the
fragments tagged "text". -/
def claimMsgContribs : InMessage → List String
  | .dictMsg _ (.str s) => [s]
  | .dictMsg _ (.parts l) =>
    l.filterMap fun fr =>
      match fr with
      | .dictPart t x => if t = "text" then some x else none
      | .nonDictPart => none
  | _ => []

/-- Modelled from the spec: all contributions of a message list, in order. -/
def claimCollect (l : List InMessage) : List String :=
  (l.map claimMsgContribs).flatten

/-- Modelled from the spec: claim C7's normalization of a message list —
"all contributions are newline-joined and the result trimmed", with no
filtering of empty contributions. -/
def claimNormalizeMsgs (l : List InMessage) : String :=
  pyStrip (String.intercalate "\n" (claimCollect l))

/-! ### Concrete fixtures used when evaluating the claims -/

instance {ε α : Type} [DecidableEq ε] [DecidableEq α] : DecidableEq (Except ε α) :=
  fun x y =>
    match x, y with
    | .error a, .error b =>
      if h : a = b then isTrue (by rw [h]) else isFalse (fun hh => h (by injection hh))
    | .ok a, .ok b =>
      if h : a = b then isTrue (by rw [h]) else isFalse (fun hh => h (by injection hh))
    | .error _, .ok _ => isFalse (fun hh => Except.noConfusion hh)
    | .ok _, .error _ => isFalse (fun hh => Except.noConfusion hh)

/-- An external callable that always answers `"out"`. -/
def okChat : List (String × String) → Except String String := fun _ => .ok "out"

/-- An external callable that always raises the fault `"boom"`. -/
def errChat : List (String × String) → Except String String := fun _ => .error "boom"

/-- An external callable that answers the analysis prompt of the default
configuration on input `"x"` and raises `"boom"` on anything else. -/
def secondFailChat : List (String × String) → Except String String := fun ms =>
  if ms = userMsg (renderAnalysisPrompt "x" "medical") then .ok "pass one out"
  else .error "boom"

/-- A message list whose middle message has empty string content. -/
def emptyMidMsgs : List InMessage :=
  [.dictMsg "user" (.str "a"), .dictMsg "user" (.str ""), .dictMsg "user" (.str "b")]

/-- The three-message example conversation from the specification. -/
def helloMsgs : List InMessage :=
  [.dictMsg "user" (.str "Hello"), .dictMsg "assistant" (.str "Hi"),
   .dictMsg "user" (.str "How are you?")]

/-- A configuration whose custom analysis template is the empty string
(falsy in Python, hence ignored by `_get_analysis_prompt`). -/
def emptyTemplateCfg : BODHIConfig := { analysis_template := some "" }

/-! ### Helper lemmas -/

theorem data_append (s t : String) : (s ++ t).data = s.data ++ t.data := rfl

theorem containsSub_isSome (s sep : List Char) :
    containsSub s sep = (splitOnceAfter s sep).isSome := by
  induction s with
  | nil => by_cases h : sep.isEmpty <;> simp [containsSub, splitOnceAfter, h]
  | cons c rest ih =>
    by_cases h : sep.isPrefixOf (c :: rest) <;>
      simp [containsSub, splitOnceAfter, h, ih]

theorem pySplitAux_head (fuel : Nat) (a sep : List Char) :
    (pySplitAux (fuel + 1) a sep).head? = some (upToNextOcc a sep) := by
  rw [pySplitAux]
  cases h : splitOnceAfter a sep with
  | none => simp [upToNextOcc, h]
  | some p => simp [upToNextOcc, h]

theorem cons_get1 (x : List Char) (xs : List (List Char)) :
    (x :: xs).get? 1 = xs.head? := by
  cases xs <;> rfl

theorem pySplit_get1 (s sep : List Char) (hsep : sep ≠ [])
    (h : containsSub s sep = true) :
    ((pySplit s sep).get? 1).getD [] = upToNextOcc (afterFirstOcc s sep) sep := by
  have hsome : (splitOnceAfter s sep).isSome = true := by
    rw [containsSub_isSome] at h; exact h
  obtain ⟨⟨b, a⟩, hba⟩ := Option.isSome_iff_exists.mp hsome
  cases s with
  | nil =>
    exfalso
    rw [splitOnceAfter] at hba
    by_cases hE : sep.isEmpty
    · exact hsep (by simpa [List.isEmpty_iff] using hE)
    · simp [hE] at hba
  | cons c rest =>
    have hstep : pySplit (c :: rest) sep = b :: pySplitAux (rest.length + 1) a sep := by
      show pySplitAux (rest.length + 1 + 1) (c :: rest) sep = _
      rw [pySplitAux, hba]
    rw [hstep, cons_get1, pySplitAux_head]
    simp [afterFirstOcc, hba]

theorem claimMsgContribs_eq_msgParts (m : InMessage) :
    claimMsgContribs m = msgParts m := by
  cases m with
  | nonDictMsg => rfl
  | dictMsg role content => cases content <;> rfl

theorem claimCollect_eq_collectParts (l : List InMessage) :
    claimCollect l = collectParts l := by
  induction l with
  | nil => rfl
  | cons m rest ih =>
    simp [claimCollect, collectParts, claimMsgContribs_eq_msgParts, ← ih]

theorem detectTaskType_cases (s : String) :
    detectTaskType s = "CONVERSATION" ∨ detectTaskType s = "TECHNICAL" ∨
    detectTaskType s = "HYBRID" ∨ detectTaskType s = "EMERGENCY" := by
  unfold detectTaskType taskTypeHeuristic
  repeat' split
  all_goals decide

theorem take33_of (p q : List Char) (h : 33 ≤ p.length) :
    (p ++ q).take 33 = p.take 33 :=
  List.take_append_of_le_length h

theorem tmpl_head33 (p m s a c : String) (h : 33 ≤ p.data.length) :
    (p ++ a ++ m ++ c ++ s).data.take 33 = p.data.take 33 := by
  show ((((p.data ++ a.data) ++ m.data) ++ c.data) ++ s.data).take 33 = _
  rw [List.append_assoc, List.append_assoc, List.append_assoc]
  exact take33_of p.data _ h

theorem medicalHead33 (i : Fin 6) (a c : String) :
    (medicalTemplate i a c).data.take 33 = (medicalHeadText i).data.take 33 := by
  fin_cases i
  · exact tmpl_head33 techPre medMid techSuf a c (by decide)
  · exact tmpl_head33 emergPre medMid emergSuf a c (by decide)
  · exact tmpl_head33 hybridPre medMid hybridSuf a c (by decide)
  · exact tmpl_head33 patientPre medMid patientSuf a c (by decide)
  · exact tmpl_head33 hpPre medMid hpSuf a c (by decide)
  · exact tmpl_head33 unclearPre medMid unclearSuf a c (by decide)

theorem medicalTemplate_inj (a c : String) (i j : Fin 6)
    (h : medicalTemplate i a c = medicalTemplate j a c) : i = j := by
  have h33 : (medicalHeadText i).data.take 33 = (medicalHeadText j).data.take 33 := by
    rw [← medicalHead33 i a c, ← medicalHead33 j a c, h]
  fin_cases i <;> fin_cases j <;> first
    | rfl
    | exact absurd h33 (by decide)

theorem renderMedical_technical (c a : String) (h : detectTaskType a = "TECHNICAL") :
    renderResponsePrompt c a "medical" = tmplTechnical a c := by
  unfold renderResponsePrompt renderMedicalResponse
  rw [h]
  rfl

theorem renderMedical_emergency (c a : String) (h : detectTaskType a = "EMERGENCY") :
    renderResponsePrompt c a "medical" = tmplEmergency a c := by
  unfold renderResponsePrompt renderMedicalResponse
  rw [h]
  rfl

theorem renderMedical_hybrid (c a : String) (h : detectTaskType a = "HYBRID") :
    renderResponsePrompt c a "medical" = tmplHybrid a c := by
  unfold renderResponsePrompt renderMedicalResponse
  rw [h]
  rfl

theorem renderMedical_patient (c a : String) (h : detectTaskType a = "CONVERSATION")
    (hp : detectAudience a = "PATIENT") :
    renderResponsePrompt c a "medical" = tmplPatient a c := by
  unfold renderResponsePrompt renderMedicalResponse
  rw [h, hp]
  rfl

theorem renderMedical_professional (c a : String)
    (h : detectTaskType a = "CONVERSATION")
    (hp : detectAudience a = "HEALTH_PROFESSIONAL") :
    renderResponsePrompt c a "medical" = tmplProfessional a c := by
  unfold renderResponsePrompt renderMedicalResponse
  rw [h, hp]
  rfl

theorem renderMedical_unclear (c a : String) (h : detectTaskType a = "CONVERSATION")
    (hp : detectAudience a ≠ "PATIENT") (hh : detectAudience a ≠ "HEALTH_PROFESSIONAL") :
    renderResponsePrompt c a "medical" = tmplUnclear a c := by
  unfold renderResponsePrompt renderMedicalResponse
  rw [h]
  simp [hp, hh]

theorem medicalTemplate_zero (a c : String) : medicalTemplate 0 a c = tmplTechnical a c := rfl

theorem medicalTemplate_one (a c : String) : medicalTemplate 1 a c = tmplEmergency a c := rfl

theorem medicalTemplate_two (a c : String) : medicalTemplate 2 a c = tmplHybrid a c := rfl

theorem medicalTemplate_three (a c : String) : medicalTemplate 3 a c = tmplPatient a c := rfl

theorem medicalTemplate_four (a c : String) : medicalTemplate 4 a c = tmplProfessional a c := rfl

theorem medicalTemplate_five (a c : String) : medicalTemplate 5 a c = tmplUnclear a c := rfl

theorem renderMedical_pick (c a : String) :
    ∃ i : Fin 6, renderResponsePrompt c a "medical" = medicalTemplate i a c := by
  rcases detectTaskType_cases a with h | h | h | h
  · by_cases hp : detectAudience a = "PATIENT"
    · exact ⟨3, by rw [medicalTemplate_three]; exact renderMedical_patient c a h hp⟩
    · by_cases hh : detectAudience a = "HEALTH_PROFESSIONAL"
      · exact ⟨4, by rw [medicalTemplate_four]; exact renderMedical_professional c a h hh⟩
      · exact ⟨5, by rw [medicalTemplate_five]; exact renderMedical_unclear c a h hp hh⟩
  · exact ⟨0, by rw [medicalTemplate_zero]; exact renderMedical_technical c a h⟩
  · exact ⟨2, by rw [medicalTemplate_two]; exact renderMedical_hybrid c a h⟩
  · exact ⟨1, by rw [medicalTemplate_one]; exact renderMedical_emergency c a h⟩

theorem split5_embeds (p m s a c : String) :
    ∃ x y : String, p ++ a ++ m ++ c ++ s = x ++ (a ++ y) :=
  ⟨p, m ++ (c ++ s), by simp [String.append_assoc]⟩

theorem renderResponse_embeds (c a d : String) :
    ∃ p q : String, renderResponsePrompt c a d = p ++ (a ++ q) := by
  unfold renderResponsePrompt renderMedicalResponse
  repeat' split
  all_goals first
    | exact split5_embeds techPre medMid techSuf a c
    | exact split5_embeds emergPre medMid emergSuf a c
    | exact split5_embeds hybridPre medMid hybridSuf a c
    | exact split5_embeds patientPre medMid patientSuf a c
    | exact split5_embeds hpPre medMid hpSuf a c
    | exact split5_embeds unclearPre medMid unclearSuf a c
    | exact split5_embeds genRespPre genRespMid genRespSuf a c

theorem detect_eq_heuristic (s : String)
    (hMk : containsSub (lowerData s) taskMarker = true →
      containsSub (taskTypeWindow (lowerData s)) "hybrid".data = false ∧
      containsSub (taskTypeWindow (lowerData s)) "technical".data = false ∧
      containsSub (taskTypeWindow (lowerData s)) "emergency".data = false) :
    detectTaskType s = taskTypeHeuristic (lowerData s) := by
  cases hm : containsSub (lowerData s) taskMarker with
  | false => simp [detectTaskType, hm]
  | true =>
    obtain ⟨h1, h2, h3⟩ := hMk hm
    simp [detectTaskType, hm, h1, h2, h3]

/-! ### The claims -/

/-- C1, counterexample: the claim says the inspected window is "the 80
characters following the first occurrence" of the marker, but the code
takes `split("task type:")[1][:80]`, which already ends at a second marker
occurrence.  On `"task type:task type:hybrid"` the marker is present and
the claimed 80-character window contains `"hybrid"`, yet `detectTaskType`
does not return HYBRID (the code's window is empty, so the text falls
through to the heuristics and yields CONVERSATION). -/
theorem C1_counterexample :
    containsSub (lowerData "task type:task type:hybrid") taskMarker = true ∧
    containsSub (specWindow80 "task type:task type:hybrid") "hybrid".data = true ∧
    detectTaskType "task type:task type:hybrid" = "CONVERSATION" ∧
    detectTaskType "task type:task type:hybrid" ≠ "HYBRID" :=
  ⟨by decide, by decide, by decide, by decide⟩

/-- C1, amended: when the analysis text contains the marker "task type:"
(case-insensitive), `detectTaskType` inspects the text between the first
and second occurrences of the marker (to the end of the text when the
marker occurs once), truncated to 80 characters, and returns HYBRID if
that window contains "hybrid", else TECHNICAL if it contains "technical",
else EMERGENCY if it contains "emergency"; if the window contains none of
the three, the result is the keyword-heuristic fallback. -/
theorem C1_main (s : String)
    (hm : containsSub (lowerData s) taskMarker = true) :
    taskTypeWindow (lowerData s) =
      (upToNextOcc (afterFirstOcc (lowerData s) taskMarker) taskMarker).take 80 ∧
    (containsSub (taskTypeWindow (lowerData s)) "hybrid".data = true →
      detectTaskType s = "HYBRID") ∧
    (containsSub (taskTypeWindow (lowerData s)) "hybrid".data = false →
     containsSub (taskTypeWindow (lowerData s)) "technical".data = true →
      detectTaskType s = "TECHNICAL") ∧
    (containsSub (taskTypeWindow (lowerData s)) "hybrid".data = false →
     containsSub (taskTypeWindow (lowerData s)) "technical".data = false →
     containsSub (taskTypeWindow (lowerData s)) "emergency".data = true →
      detectTaskType s = "EMERGENCY") ∧
    (containsSub (taskTypeWindow (lowerData s)) "hybrid".data = false →
     containsSub (taskTypeWindow (lowerData s)) "technical".data = false →
     containsSub (taskTypeWindow (lowerData s)) "emergency".data = false →
      detectTaskType s = taskTypeHeuristic (lowerData s)) := by
  refine ⟨?_, ?_, ?_, ?_, ?_⟩
  · show (((pySplit (lowerData s) taskMarker).get? 1).getD []).take 80 = _
    rw [pySplit_get1 _ _ (by decide) hm]
  · intro h1
    simp [detectTaskType, hm, h1]
  · intro h1 h2
    simp [detectTaskType, hm, h1, h2]
  · intro h1 h2 h3
    simp [detectTaskType, hm, h1, h2, h3]
  · intro h1 h2 h3
    simp [detectTaskType, hm, h1, h2, h3]

/-- C1, witness: a declared recognized task type is honoured. -/
theorem C1_witness : detectTaskType "task type: hybrid" = "HYBRID" :=
  (C1_main "task type: hybrid" (by decide)).2.1 (by decide)

/-- C2: an emergency keyword anywhere in the text forces EMERGENCY
whenever the explicit marker, if present at all, has no recognized label
in its window. -/
theorem C2_main (s : String)
    (hEm : emergencyPhrases.any (fun p => containsSub (lowerData s) p.data) = true)
    (hMk : containsSub (lowerData s) taskMarker = true →
      containsSub (taskTypeWindow (lowerData s)) "hybrid".data = false ∧
      containsSub (taskTypeWindow (lowerData s)) "technical".data = false ∧
      containsSub (taskTypeWindow (lowerData s)) "emergency".data = false) :
    detectTaskType s = "EMERGENCY" := by
  rw [detect_eq_heuristic s hMk]
  simp [taskTypeHeuristic, hEm]

/-- C2, witness: "unconscious" overrides a declared-but-unrecognized task
type. -/
theorem C2_witness :
    detectTaskType "task type: unknown. the patient is unconscious" = "EMERGENCY" :=
  C2_main _ (by decide) (by decide)

/-- C3: with no recognized marker window and no emergency keyword, the
documentation-and-action conjunction yields TECHNICAL without a
clinical-reasoning signal and HYBRID with one, and its failure yields
CONVERSATION. -/
theorem C3_main (s : String)
    (hMk : containsSub (lowerData s) taskMarker = true →
      containsSub (taskTypeWindow (lowerData s)) "hybrid".data = false ∧
      containsSub (taskTypeWindow (lowerData s)) "technical".data = false ∧
      containsSub (taskTypeWindow (lowerData s)) "emergency".data = false)
    (hEm : emergencyPhrases.any (fun p => containsSub (lowerData s) p.data) = false) :
    ((docTypes.any fun d => containsSub (lowerData s) d.data) = true →
     (actionWords.any fun w => containsSub (lowerData s) w.data) = true →
     (clinicalReasoningSignals.any fun p => containsSub (lowerData s) p.data) = false →
      detectTaskType s = "TECHNICAL") ∧
    ((docTypes.any fun d => containsSub (lowerData s) d.data) = true →
     (actionWords.any fun w => containsSub (lowerData s) w.data) = true →
     (clinicalReasoningSignals.any fun p => containsSub (lowerData s) p.data) = true →
      detectTaskType s = "HYBRID") ∧
    (((docTypes.any fun d => containsSub (lowerData s) d.data) &&
      (actionWords.any fun w => containsSub (lowerData s) w.data)) = false →
      detectTaskType s = "CONVERSATION") := by
  rw [detect_eq_heuristic s hMk]
  refine ⟨?_, ?_, ?_⟩
  · intro h1 h2 h3
    simp [taskTypeHeuristic, hEm, h1, h2, h3]
  · intro h1 h2 h3
    simp [taskTypeHeuristic, hEm, h1, h2, h3]
  · intro h1
    simp [taskTypeHeuristic, hEm, h1]

/-- C3, witness: "please write a soap note" is TECHNICAL; with
"differential" added it becomes HYBRID. -/
theorem C3_witness :
    detectTaskType "please write a soap note" = "TECHNICAL" ∧
    detectTaskType "please write a soap note with a differential" = "HYBRID" :=
  ⟨(C3_main "please write a soap note" (by decide) (by decide)).1
      (by decide) (by decide) (by decide),
   (C3_main "please write a soap note with a differential" (by decide)
      (by decide)).2.1 (by decide) (by decide) (by decide)⟩

/-- C6: with no recognized label in the audience-marker window (if the
marker is present at all), `detectAudience` answers UNCLEAR exactly when
the professional-signal and patient-signal booleans agree, and the
matching label when exactly one of them is set. -/
theorem C6_main (s : String)
    (hMk : containsSub (lowerData s) audMarker = true →
      containsSub (audienceWindow (lowerData s)) "health_professional".data = false ∧
      containsSub (audienceWindow (lowerData s)) "professional".data = false ∧
      containsSub (audienceWindow (lowerData s)) "patient".data = false ∧
      containsSub (audienceWindow (lowerData s)) "caregiver".data = false) :
    (detectAudience s = "UNCLEAR" ↔
      (professionalSignals.any fun p => containsSub (lowerData s) p.data) =
        (patientSignals.any fun p => containsSub (lowerData s) p.data)) ∧
    ((professionalSignals.any fun p => containsSub (lowerData s) p.data) = true →
     (patientSignals.any fun p => containsSub (lowerData s) p.data) = false →
      detectAudience s = "HEALTH_PROFESSIONAL") ∧
    ((patientSignals.any fun p => containsSub (lowerData s) p.data) = true →
     (professionalSignals.any fun p => containsSub (lowerData s) p.data) = false →
      detectAudience s = "PATIENT") := by
  have hd : detectAudience s = audienceHeuristic (lowerData s) := by
    cases hm : containsSub (lowerData s) audMarker with
    | false => simp [detectAudience, hm]
    | true =>
      obtain ⟨h1, h2, h3, h4⟩ := hMk hm
      simp [detectAudience, hm, h1, h2, h3, h4]
  rw [hd]
  cases hp : (professionalSignals.any fun p => containsSub (lowerData s) p.data) <;>
    cases hq : (patientSignals.any fun p => containsSub (lowerData s) p.data) <;>
      simp [audienceHeuristic, hp, hq]

/-- C6, witness: a lone professional signal, a lone patient signal, both,
and neither. -/
theorem C6_witness :
    detectAudience "as a nurse i wonder about dosing" = "HEALTH_PROFESSIONAL" ∧
    detectAudience "i have a headache" = "PATIENT" ∧
    detectAudience "as a nurse i have a headache" = "UNCLEAR" ∧
    detectAudience "hello there" = "UNCLEAR" :=
  ⟨(C6_main "as a nurse i wonder about dosing" (by decide)).2.1
      (by decide) (by decide),
   (C6_main "i have a headache" (by decide)).2.2 (by decide) (by decide),
   (C6_main "as a nurse i have a headache" (by decide)).1.mpr (by decide),
   (C6_main "hello there" (by decide)).1.mpr (by decide)⟩

/-- C4: `detectTaskType` is total with values among the four labels; for
domain "medical" the rendered response prompt equals exactly one of the
six fixed templates (uniqueness via their distinct fixed head texts); the
dispatch follows the task type, consulting the audience only in the
CONVERSATION branch; and any non-"medical" domain (in particular
"general") always yields the single generic template. -/
theorem C4_main :
    (∀ s : String, detectTaskType s = "CONVERSATION" ∨ detectTaskType s = "TECHNICAL" ∨
      detectTaskType s = "HYBRID" ∨ detectTaskType s = "EMERGENCY") ∧
    (∀ c a : String, ∃! i : Fin 6,
      renderResponsePrompt c a "medical" = medicalTemplate i a c) ∧
    (∀ c a : String,
      (detectTaskType a = "TECHNICAL" →
        renderResponsePrompt c a "medical" = tmplTechnical a c) ∧
      (detectTaskType a = "EMERGENCY" →
        renderResponsePrompt c a "medical" = tmplEmergency a c) ∧
      (detectTaskType a = "HYBRID" →
        renderResponsePrompt c a "medical" = tmplHybrid a c) ∧
      (detectTaskType a = "CONVERSATION" → detectAudience a = "PATIENT" →
        renderResponsePrompt c a "medical" = tmplPatient a c) ∧
      (detectTaskType a = "CONVERSATION" → detectAudience a = "HEALTH_PROFESSIONAL" →
        renderResponsePrompt c a "medical" = tmplProfessional a c) ∧
      (detectTaskType a = "CONVERSATION" → detectAudience a ≠ "PATIENT" →
        detectAudience a ≠ "HEALTH_PROFESSIONAL" →
        renderResponsePrompt c a "medical" = tmplUnclear a c)) ∧
    (∀ c a : String, renderResponsePrompt c a "general" = tmplGeneralResponse a c) := by
  refine ⟨detectTaskType_cases, ?_, ?_, fun c a => rfl⟩
  · intro c a
    obtain ⟨i, hi⟩ := renderMedical_pick c a
    exact ⟨i, hi, fun j hj => medicalTemplate_inj a c j i (hj.symm.trans hi)⟩
  · intro c a
    exact ⟨fun h => renderMedical_technical c a h,
           fun h => renderMedical_emergency c a h,
           fun h => renderMedical_hybrid c a h,
           fun h hp => renderMedical_patient c a h hp,
           fun h hp => renderMedical_professional c a h hp,
           fun h hp hh => renderMedical_unclear c a h hp hh⟩

/-- C4, witness: on a declared TECHNICAL analysis, the medical dispatch
yields the TECHNICAL template. -/
theorem C4_witness :
    renderResponsePrompt "case" "task type: technical" "medical" =
      tmplTechnical "task type: technical" "case" :=
  (C4_main.2.2.1 "case" "task type: technical").1 (by decide)

/-- C5: a two-pass run calls the external callable exactly twice, in
order, first on the rendered analysis prompt and then on the rendered
response prompt; with the default response template the second prompt
embeds the first output verbatim; the record carries the second output as
content, the first as analysis, and mode "two_pass".  A single-pass run
calls the callable exactly once on the analysis prompt and stores the
fixed placeholder as analysis, with mode "single_pass". -/
theorem C5_main {ε : Type} (cfg : BODHIConfig)
    (chat : List (String × String) → Except ε String) (input : PromptInput)
    (ap analysis rp content : String)
    (hA : getAnalysisPrompt cfg (normalizeInput input) = .ok ap)
    (h1 : chat (userMsg ap) = .ok analysis)
    (hR : getResponsePrompt cfg (normalizeInput input) analysis = .ok rp)
    (h2 : chat (userMsg rp) = .ok content) :
    runComplete cfg chat input true =
      (.ok ⟨content, analysis, ⟨"two_pass", cfg.domain⟩⟩, [userMsg ap, userMsg rp]) ∧
    (cfg.response_template = none → ∃ p q : String, rp = p ++ (analysis ++ q)) ∧
    runComplete cfg chat input false =
      (.ok ⟨analysis, singlePassPlaceholder, ⟨"single_pass", cfg.domain⟩⟩,
       [userMsg ap]) := by
  refine ⟨?_, ?_, ?_⟩
  · simp [runComplete, twoPassRun, hA, h1, hR, h2]
  · intro hnone
    have he : renderResponsePrompt (normalizeInput input) analysis cfg.domain = rp := by
      simpa [getResponsePrompt, hnone] using hR
    obtain ⟨p, q, hpq⟩ := renderResponse_embeds (normalizeInput input) analysis cfg.domain
    exact ⟨p, q, by rw [← he, hpq]⟩
  · simp [runComplete, singlePassRun, hA, h1]

/-- C5, witness: a concrete two-pass and single-pass run against a
constant callable. -/
theorem C5_witness :
    runComplete ({} : BODHIConfig) okChat (.str "Hi") true =
      (.ok ⟨"out", "out", ⟨"two_pass", "medical"⟩⟩,
       [userMsg (renderAnalysisPrompt "Hi" "medical"),
        userMsg (renderResponsePrompt "Hi" "out" "medical")]) ∧
    (({} : BODHIConfig).response_template = none →
      ∃ p q : String, renderResponsePrompt "Hi" "out" "medical" = p ++ ("out" ++ q)) ∧
    runComplete ({} : BODHIConfig) okChat (.str "Hi") false =
      (.ok ⟨"out", singlePassPlaceholder, ⟨"single_pass", "medical"⟩⟩,
       [userMsg (renderAnalysisPrompt "Hi" "medical")]) :=
  C5_main {} okChat (.str "Hi") (renderAnalysisPrompt "Hi" "medical") "out"
    (renderResponsePrompt "Hi" "out" "medical") "out" rfl rfl rfl rfl

/-- C7, counterexample: the claim joins every contribution with newlines,
but the code's `"\n".join(p for p in parts if p)` drops empty
contributions first; a message list with an empty middle message
separates the two readings. -/
theorem C7_counterexample :
    normalizeInput (.msgs emptyMidMsgs) = "a\nb" ∧
    claimNormalizeMsgs emptyMidMsgs = "a\n\nb" ∧
    normalizeInput (.msgs emptyMidMsgs) ≠ claimNormalizeMsgs emptyMidMsgs :=
  ⟨by decide, by decide, by decide⟩

/-- C7, amended: normalization is total — a plain string is trimmed; a
message list is flattened to its contributions (string content directly,
else the text of fragments tagged "text"), the non-empty contributions are
newline-joined and the result trimmed (in particular the three-message
example yields "Hello\nHi\nHow are you?"); any other input is its
canonical string representation. -/
theorem C7_main :
    (∀ s : String, normalizeInput (.str s) = pyStrip s) ∧
    (∀ l : List InMessage, normalizeInput (.msgs l) =
      pyStrip (String.intercalate "\n" ((claimCollect l).filter fun p => !p.isEmpty))) ∧
    normalizeInput (.msgs helloMsgs) = "Hello\nHi\nHow are you?" ∧
    (∀ r : String, normalizeInput (.other r) = r) := by
  refine ⟨fun s => rfl, ?_, by decide, fun r => rfl⟩
  intro l
  rw [claimCollect_eq_collectParts]
  rfl

/-- C8, counterexample: the claim covers every supplied custom template
string, but Python's `if self.config.analysis_template:` is a truthiness
test, so the empty-string template is ignored and the default template is
rendered instead of the (empty) substituted template. -/
theorem C8_counterexample :
    emptyTemplateCfg.analysis_template = some "" ∧
    pyFormat "" [("input", "Test")] = .ok "" ∧
    getAnalysisPrompt emptyTemplateCfg "Test" =
      .ok (renderAnalysisPrompt "Test" "medical") ∧
    getAnalysisPrompt emptyTemplateCfg "Test" ≠ pyFormat "" [("input", "Test")] :=
  ⟨rfl, rfl, rfl, by decide⟩

/-- C8, amended: a non-empty custom analysis (resp. response) template is
rendered exactly by named substitution of {input} (resp. {input} and
{analysis}), bypassing the default templates and classification; in
particular with analysis template "Custom: {input}" and input "Test" the
first call's prompt is exactly "Custom: Test", whatever the callable
does. -/
theorem C8_main :
    (∀ (cfg : BODHIConfig) (t caseText : String),
      cfg.analysis_template = some t → t ≠ "" →
      getAnalysisPrompt cfg caseText = pyFormat t [("input", caseText)]) ∧
    (∀ (cfg : BODHIConfig) (t caseText analysis : String),
      cfg.response_template = some t → t ≠ "" →
      getResponsePrompt cfg caseText analysis =
        pyFormat t [("input", caseText), ("analysis", analysis)]) ∧
    (∀ (ε : Type) (chat : List (String × String) → Except ε String),
      ((runComplete { analysis_template := some "Custom: {input}" } chat
          (.str "Test") true).2).head? = some (userMsg "Custom: Test")) := by
  refine ⟨?_, ?_, ?_⟩
  · intro cfg t caseText hT hne
    have hE : t.isEmpty = false := by
      cases hE : t.isEmpty
      · rfl
      · exact absurd ((String.isEmpty_iff t).mp hE) hne
    simp [getAnalysisPrompt, hT, hE]
  · intro cfg t caseText analysis hT hne
    have hE : t.isEmpty = false := by
      cases hE : t.isEmpty
      · rfl
      · exact absurd ((String.isEmpty_iff t).mp hE) hne
    simp [getResponsePrompt, hT, hE]
  · intro ε chat
    have hA : getAnalysisPrompt { analysis_template := some "Custom: {input}" }
        (normalizeInput (.str "Test")) = .ok "Custom: Test" := rfl
    cases hc : chat (userMsg "Custom: Test") with
    | error e => simp [runComplete, twoPassRun, hA, hc]
    | ok analysis =>
      cases hc2 : chat (userMsg (renderResponsePrompt (normalizeInput (.str "Test"))
          analysis "medical")) with
      | error e =>
        simp [runComplete, twoPassRun, getResponsePrompt, hA, hc, hc2]
      | ok content =>
        simp [runComplete, twoPassRun, getResponsePrompt, hA, hc, hc2]

/-- C8, witness: a concrete non-empty custom analysis template is rendered
by substitution. -/
theorem C8_witness :
    getAnalysisPrompt { analysis_template := some "Tmpl {input} end" } "X" =
      pyFormat "Tmpl {input} end" [("input", "X")] :=
  C8_main.1 { analysis_template := some "Tmpl {input} end" } "Tmpl {input} end"
    "X" rfl (by decide)

/-- C9: a fault raised by the external callable on the first (resp.
second) invocation propagates unchanged out of `complete` (two-pass and
single-pass) and `analyze`, and no further invocation happens: the trace
stops at the faulting call. -/
theorem C9_main {ε : Type} (cfg : BODHIConfig)
    (chat : List (String × String) → Except ε String) (input : PromptInput)
    (e : ε) (ap analysis rp : String) :
    (getAnalysisPrompt cfg (normalizeInput input) = .ok ap →
     chat (userMsg ap) = .error e →
     runComplete cfg chat input true = (.error (.chatFault e), [userMsg ap]) ∧
     runComplete cfg chat input false = (.error (.chatFault e), [userMsg ap]) ∧
     analyzeRun cfg chat input = (.error (.chatFault e), [userMsg ap])) ∧
    (getAnalysisPrompt cfg (normalizeInput input) = .ok ap →
     chat (userMsg ap) = .ok analysis →
     getResponsePrompt cfg (normalizeInput input) analysis = .ok rp →
     chat (userMsg rp) = .error e →
     runComplete cfg chat input true =
       (.error (.chatFault e), [userMsg ap, userMsg rp])) := by
  constructor
  · intro hA hf
    exact ⟨by simp [runComplete, twoPassRun, hA, hf],
           by simp [runComplete, singlePassRun, hA, hf],
           by simp [analyzeRun, hA, hf]⟩
  · intro hA h1 hR hf
    simp [runComplete, twoPassRun, hA, h1, hR, hf]

set_option maxRecDepth 16384 in
/-- C9, witness: a callable that always faults stops every mode after one
call; a callable that faults on the second pass stops after two. -/
theorem C9_witness :
    (runComplete ({} : BODHIConfig) errChat (.str "x") true =
      (.error (.chatFault "boom"), [userMsg (renderAnalysisPrompt "x" "medical")]) ∧
     runComplete ({} : BODHIConfig) errChat (.str "x") false =
      (.error (.chatFault "boom"), [userMsg (renderAnalysisPrompt "x" "medical")]) ∧
     analyzeRun ({} : BODHIConfig) errChat (.str "x") =
      (.error (.chatFault "boom"), [userMsg (renderAnalysisPrompt "x" "medical")])) ∧
    runComplete ({} : BODHIConfig) secondFailChat (.str "x") true =
      (.error (.chatFault "boom"),
       [userMsg (renderAnalysisPrompt "x" "medical"),
        userMsg (renderResponsePrompt "x" "pass one out" "medical")]) :=
  ⟨(C9_main {} errChat (.str "x") "boom" (renderAnalysisPrompt "x" "medical")
      "" "").1 rfl rfl,
   (C9_main {} secondFailChat (.str "x") "boom" (renderAnalysisPrompt "x" "medical")
      "pass one out" (renderResponsePrompt "x" "pass one out" "medical")).2
      rfl rfl rfl rfl⟩

theorem isEmpty_false_of_format_error (t : String) (vals : List (String × String))
    (e : FmtError) (hF : pyFormat t vals = .error e) : t.isEmpty = false := by
  cases hE : t.isEmpty
  · rfl
  · exfalso
    have ht : t = "" := (String.isEmpty_iff t).mp hE
    subst ht
    exact Except.noConfusion hF

/-- C10: a custom template whose brace placeholders are not among the
recognized ones — or that has an unmatched single brace — makes prompt
rendering raise before the external callable is invoked for that pass: a
bad analysis template fails `complete` (both modes) and `analyze` with an
empty trace, and a bad response template fails the two-pass run after
exactly the first call. -/
theorem C10_main {ε : Type} (cfg : BODHIConfig)
    (chat : List (String × String) → Except ε String) (input : PromptInput)
    (t rt ap analysis : String) (e : FmtError) :
    (cfg.analysis_template = some t →
     pyFormat t [("input", normalizeInput input)] = .error e →
     runComplete cfg chat input true = (.error (.fmt e), []) ∧
     runComplete cfg chat input false = (.error (.fmt e), []) ∧
     analyzeRun cfg chat input = (.error (.fmt e), [])) ∧
    (getAnalysisPrompt cfg (normalizeInput input) = .ok ap →
     chat (userMsg ap) = .ok analysis →
     cfg.response_template = some rt →
     pyFormat rt [("input", normalizeInput input), ("analysis", analysis)] = .error e →
     runComplete cfg chat input true = (.error (.fmt e), [userMsg ap])) ∧
    pyFormat "Custom: {foo}" [("input", "Test")] = .error (.keyError "foo") ∧
    pyFormat "oops \x7b" [("input", "Test")] = .error .valueError := by
  refine ⟨?_, ?_, rfl, rfl⟩
  · intro hT hF
    have hE := isEmpty_false_of_format_error _ _ _ hF
    have hbad : getAnalysisPrompt cfg (normalizeInput input) = .error e := by
      simp [getAnalysisPrompt, hT, hE, hF]
    exact ⟨by simp [runComplete, twoPassRun, hbad],
           by simp [runComplete, singlePassRun, hbad],
           by simp [analyzeRun, hbad]⟩
  · intro hA h1 hRT hF
    have hE := isEmpty_false_of_format_error _ _ _ hF
    have hbad : getResponsePrompt cfg (normalizeInput input) analysis = .error e := by
      simp [getResponsePrompt, hRT, hE, hF]
    simp [runComplete, twoPassRun, hA, h1, hbad]

/-- C10, witness: an unknown placeholder in the analysis template fails
before any call; an unmatched brace in the response template fails after
exactly one call. -/
theorem C10_witness :
    runComplete { analysis_template := some "Custom: {foo}" } okChat (.str "hi") true =
      (.error (.fmt (.keyError "foo")), []) ∧
    runComplete { response_template := some "bad \x7b" } okChat (.str "hi") true =
      (.error (.fmt .valueError), [userMsg (renderAnalysisPrompt "hi" "medical")]) :=
  ⟨((C10_main { analysis_template := some "Custom: {foo}" } okChat (.str "hi")
      "Custom: {foo}" "" "" "" (.keyError "foo")).1 rfl rfl).1,
   (C10_main { response_template := some "bad \x7b" } okChat (.str "hi")
      "" "bad \x7b" (renderAnalysisPrompt "hi" "medical") "out" .valueError).2.1
      rfl rfl rfl rfl⟩

end Bodhi
